import Mathlib

/-!
Verification development for the job-tracker email pipeline
(backend/app/{unwrapper,extractor,matcher,processor}.py).

The Python source is shallowly embedded: pure helper functions become Lean
functions, the SQLAlchemy-backed state becomes explicit record stores that are
threaded through the pipeline, float confidence arithmetic is modelled with
exact rationals, and datetimes are modelled as integer timestamps (seconds,
with timedelta(days = n) becoming n * 86400).  Every constant appearing in the
source is a short decimal, so the rational model agrees with the float
semantics on every comparison used below.

Rational values are always built with mkRat and combined with the qAdd / qMul
/ qMin / qLe / qLt wrappers defined here, because those operations reduce
inside the kernel; the wrappers are definitionally equal to the ordinary
rational operations.
-/

/-- Addition on rationals via mkRat (kernel-computable, equal to plain addition). -/
def qAdd (a b : ℚ) : ℚ := mkRat (a.num * b.den + b.num * a.den) (a.den * b.den)

/-- Multiplication on rationals via mkRat (kernel-computable, equal to plain multiplication). -/
def qMul (a b : ℚ) : ℚ := mkRat (a.num * b.num) (a.den * b.den)

/-- Boolean less-or-equal on rationals (kernel-computable). -/
def qLe (a b : ℚ) : Bool := !(Rat.blt b a)

/-- Boolean strict less-than on rationals (kernel-computable). -/
def qLt (a b : ℚ) : Bool := Rat.blt a b

/-- Minimum of two rationals, as used by Python min(score, 1.0). -/
def qMin (a b : ℚ) : ℚ := if qLe a b then a else b

theorem qLt_iff (a b : ℚ) : qLt a b = true ↔ a < b := by
  unfold qLt; exact Iff.rfl

theorem qLe_iff (a b : ℚ) : qLe a b = true ↔ a ≤ b := by
  unfold qLe
  show (!(Rat.blt b a)) = true ↔ Rat.blt b a = false
  simp

theorem qAdd_eq (a b : ℚ) : qAdd a b = a + b := by
  unfold qAdd
  rw [Rat.add_def, Rat.mkRat_def]
  simp [Nat.mul_eq_zero, a.den_nz, b.den_nz]

theorem qMul_eq (a b : ℚ) : qMul a b = a * b := by
  unfold qMul
  rw [Rat.mul_def, Rat.mkRat_def]
  simp [Nat.mul_eq_zero, a.den_nz, b.den_nz]

theorem qMin_eq (a b : ℚ) : qMin a b = min a b := by
  unfold qMin
  by_cases hab : a ≤ b
  · rw [if_pos ((qLe_iff a b).mpr hab), min_def, if_pos hab]
  · have h : qLe a b = false := by
      rcases Bool.eq_false_or_eq_true (qLe a b) with h | h
      · exact absurd ((qLe_iff a b).mp h) hab
      · exact h
    rw [h, min_def, if_neg hab]
    simp

/-! ### Character and string helpers

Python str.lower, str.strip and slicing act on code points; the model works on
the code-point list underlying a Lean string.  Char.toLower matches Python
lower() on the ASCII range, which is the range exercised by the source's
patterns and by every concrete input below.
-/

/-- Lowercase a string code-point-wise (models Python str.lower on ASCII). -/
def strLower (s : String) : String := ⟨s.data.map Char.toLower⟩

/-- Strip leading and trailing whitespace (models Python str.strip). -/
def strStrip (s : String) : String :=
  ⟨(s.data.dropWhile Char.isWhitespace).reverse.dropWhile Char.isWhitespace |>.reverse⟩

/-- Number of code points (models Python len on str). -/
def strLen (s : String) : ℕ := s.data.length

/-- First n code points (models Python s[:n]). -/
def strTake (s : String) (n : ℕ) : String := ⟨s.data.take n⟩

/-- Python truthiness of an optional string: present and non-empty. -/
def strTruthy : Option String → Bool
  | some s => !s.data.isEmpty
  | none => false

/-- Python "x or y" on an optional string versus a default string. -/
def orStr (o : Option String) (d : String) : String :=
  if strTruthy o then o.getD "" else d

/-- Does the character list needle occur inside hay (contiguously)? -/
def listContainsSub (hay needle : List Char) : Bool :=
  hay.tails.any (fun t => needle.isPrefixOf t)

/-- Case-insensitive substring test on strings. -/
def containsCI (hay needle : String) : Bool :=
  listContainsSub (strLower hay).data (strLower needle).data

/-! ### SHA-256

Embedding of the cryptographic digest used by generate_email_fingerprint
(hashlib.sha256 over the UTF-8 bytes).  Machine words are naturals reduced
mod 2 ^ 32 at every step.
-/

/-- 32-bit truncation. -/
def w32 (n : ℕ) : ℕ := n % 4294967296

/-- Right rotation of a 32-bit word by n bits. -/
def rotr32 (n x : ℕ) : ℕ := w32 ((x >>> n) ||| (x <<< (32 - n)))

/-- SHA-256 round constants. -/
def sha256K : List ℕ :=
  [
   1116352408, 1899447441, 3049323471, 3921009573, 961987163, 1508970993, 2453635748, 2870763221,
   3624381080, 310598401, 607225278, 1426881987, 1925078388, 2162078206, 2614888103, 3248222580,
   3835390401, 4022224774, 264347078, 604807628, 770255983, 1249150122, 1555081692, 1996064986,
   2554220882, 2821834349, 2952996808, 3210313671, 3336571891, 3584528711, 113926993, 338241895,
   666307205, 773529912, 1294757372, 1396182291, 1695183700, 1986661051, 2177026350, 2456956037,
   2730485921, 2820302411, 3259730800, 3345764771, 3516065817, 3600352804, 4094571909, 275423344,
   430227734, 506948616, 659060556, 883997877, 958139571, 1322822218, 1537002063, 1747873779,
   1955562222, 2024104815, 2227730452, 2361852424, 2428436474, 2756734187, 3204031479, 3329325298]

/-- Working state of the SHA-256 compression function (eight 32-bit words). -/
structure Sha256State where
  h0 : ℕ
  h1 : ℕ
  h2 : ℕ
  h3 : ℕ
  h4 : ℕ
  h5 : ℕ
  h6 : ℕ
  h7 : ℕ
deriving Repr, DecidableEq

/-- SHA-256 initial hash value. -/
def sha256Init : Sha256State :=
  ⟨1779033703, 3144134277, 1013904242, 2773480762, 1359893119, 2600822924, 528734635, 1541459225⟩

/-- SHA-256 padding: append 0x80, zero bytes, and the 64-bit big-endian bit length. -/
def sha256Pad (msg : List ℕ) : List ℕ :=
  let len := msg.length
  let k := (64 - ((len + 9) % 64)) % 64
  let bitLen := (8 * len) % 18446744073709551616
  msg ++ [0x80] ++ List.replicate k 0 ++
    [bitLen >>> 56 % 256, bitLen >>> 48 % 256, bitLen >>> 40 % 256, bitLen >>> 32 % 256,
     bitLen >>> 24 % 256, bitLen >>> 16 % 256, bitLen >>> 8 % 256, bitLen % 256]

/-- Split a byte list into 64-byte blocks (fuel-driven; fuel bounds the block count). -/
def sha256Blocks : ℕ → List ℕ → List (List ℕ)
  | 0, _ => []
  | _, [] => []
  | fuel + 1, bytes => bytes.take 64 :: sha256Blocks fuel (bytes.drop 64)

/-- Read the i-th big-endian 32-bit word of a block. -/
def blockWord (block : List ℕ) (i : ℕ) : ℕ :=
  w32 ((block.getD (4 * i) 0) <<< 24 ||| (block.getD (4 * i + 1) 0) <<< 16 |||
       (block.getD (4 * i + 2) 0) <<< 8 ||| block.getD (4 * i + 3) 0)

/-- Message-schedule extension step. -/
def sha256Extend (w : List ℕ) (i : ℕ) : ℕ :=
  let g j := w.getD j 0
  let s0 := (rotr32 7 (g (i - 15))).xor ((rotr32 18 (g (i - 15))).xor ((g (i - 15)) >>> 3))
  let s1 := (rotr32 17 (g (i - 2))).xor ((rotr32 19 (g (i - 2))).xor ((g (i - 2)) >>> 10))
  w32 (g (i - 16) + s0 + g (i - 7) + s1)

/-- Full 64-entry message schedule for one block. -/
def sha256Schedule (block : List ℕ) : List ℕ :=
  let base := (List.range 16).map (blockWord block)
  (List.range 48).foldl (fun w i => w ++ [sha256Extend w (i + 16)]) base

/-- One round of the SHA-256 compression function. -/
def sha256Round (st : Sha256State) (kw : ℕ × ℕ) : Sha256State :=
  let a := st.h0; let b := st.h1; let c := st.h2; let d := st.h3
  let e := st.h4; let f := st.h5; let g := st.h6; let h := st.h7
  let s1 := (rotr32 6 e).xor ((rotr32 11 e).xor (rotr32 25 e))
  let ch := (Nat.land e f).xor (Nat.land (Nat.xor e 4294967295) g)
  let temp1 := w32 (h + s1 + ch + kw.1 + kw.2)
  let s0 := (rotr32 2 a).xor ((rotr32 13 a).xor (rotr32 22 a))
  let maj := (Nat.land a b).xor ((Nat.land a c).xor (Nat.land b c))
  let temp2 := w32 (s0 + maj)
  ⟨w32 (temp1 + temp2), a, b, c, w32 (d + temp1), e, f, g⟩

/-- Process one 64-byte block. -/
def sha256Compress (st : Sha256State) (block : List ℕ) : Sha256State :=
  let ws := sha256Schedule block
  let r := (sha256K.zip ws).foldl sha256Round st
  ⟨w32 (st.h0 + r.h0), w32 (st.h1 + r.h1), w32 (st.h2 + r.h2), w32 (st.h3 + r.h3),
   w32 (st.h4 + r.h4), w32 (st.h5 + r.h5), w32 (st.h6 + r.h6), w32 (st.h7 + r.h7)⟩

/-- SHA-256 of a byte list, as the final state. -/
def sha256Hash (msg : List ℕ) : Sha256State :=
  let padded := sha256Pad msg
  (sha256Blocks (padded.length / 64 + 1) padded).foldl sha256Compress sha256Init

/-- Hex digit for a nibble. -/
def hexNibble (n : ℕ) : Char := "0123456789abcdef".data.getD n '0'

/-- Eight-character lowercase hex rendering of a 32-bit word. -/
def wordHex (w : ℕ) : List Char :=
  [w / 268435456, w / 16777216, w / 1048576, w / 65536, w / 4096, w / 256, w / 16, w].map
    (fun x => hexNibble (x % 16))

/-- Character list of the hex digest of a SHA-256 state. -/
def sha256HexList (msg : List ℕ) : List Char :=
  let st := sha256Hash msg
  wordHex st.h0 ++ wordHex st.h1 ++ wordHex st.h2 ++ wordHex st.h3 ++
   wordHex st.h4 ++ wordHex st.h5 ++ wordHex st.h6 ++ wordHex st.h7

/-- Hex digest of a SHA-256 state (models hashlib hexdigest: 64 hex characters). -/
def sha256Hex (msg : List ℕ) : String := ⟨sha256HexList msg⟩

/-- UTF-8 bytes of a string (models str.encode of Python). -/
def strUTF8 (s : String) : List ℕ :=
  s.data.foldr (fun c acc => (String.utf8EncodeChar c).map (·.toNat) ++ acc) []

/-! ### generate_email_fingerprint (extractor.py lines 838-864)

The datetime argument is modelled as an integer timestamp; isoformat is
modelled as an injective textual rendering of that timestamp.  No claim
depends on the concrete rendering, only on the presence/absence of the field
and on determinism.  The three string arguments are Options so that the
Python "or two-quote-empty-string" guards on possibly-missing values are visible in
the model.
-/

/-- Model of datetime.isoformat: an injective textual rendering of the timestamp. -/
def isoformat (t : ℤ) : String := toString t

/-- Stable fingerprint for email deduplication: SHA-256 hex digest of the
pipe-joined components (from, subject, ISO date, first 500 characters of the
body), with missing fields contributing the empty string. -/
def generate_email_fingerprint (original_from original_subject : Option String)
    (original_date : Option ℤ) (body_start : Option String) : String :=
  let components : List String :=
    [original_from.getD "", original_subject.getD "",
     (match original_date with
      | some d => isoformat d
      | none => ""),
     strTake (body_start.getD "") 500]
  sha256Hex (strUTF8 (String.intercalate "|" components))

/-! ### Company-name cleanup (extractor.py lines 430-434)

Models re.sub of an anchored pattern: one whitespace run followed by a single noise
word (Team, Recruitment, Recruiting, Services, Careers, Online Assessment),
case-insensitively, at the end of the string, is removed; the pattern is
anchored at the end so at most one match exists, and the leftmost match
includes the whole preceding whitespace run.  The result is then stripped.
-/

/-- Trailing noise words stripped from company names (lowercased). -/
def companyNoiseWords : List String :=
  ["team", "recruitment", "recruiting", "services", "careers", "online assessment"]

/-- Does the lowercased character list end with this (lowercase) word? -/
def endsWithCI (s : List Char) (word : String) : Bool :=
  word.data.reverse.isPrefixOf ((s.map Char.toLower).reverse)

/-- Remove one trailing whitespace-plus-noise-word suffix, if present. -/
def stripNoiseSuffix (s : List Char) : List Char :=
  match companyNoiseWords.find? (fun word =>
      endsWithCI s word && ((s.reverse.drop word.data.length).headD 'x').isWhitespace) with
  | some word =>
    ((s.reverse.drop word.data.length).dropWhile Char.isWhitespace).reverse
  | none => s

/-- Cleanup applied to a winning company candidate: strip one trailing noise
word, then strip surrounding whitespace. -/
def cleanupCompanyName (company : String) : String :=
  strStrip ⟨stripNoiseSuffix company.data⟩


/-! ### Forwarded-email unwrapper (unwrapper.py)

Forward-marker detection is embedded concretely: the three Gmail-style
patterns are plain case-insensitive substring searches, the Outlook header
pattern from-colon dot-star sent-colon dot-star to-colon dot-star
subject-colon is a within-one-line ordered-occurrence search (the regex dot
does not cross newlines), and the horizontal-rule pattern is a 32-underscore
substring search.  The regex-based helper functions of the class
(_extract_header, _parse_date, _extract_clean_body) and BeautifulSoup's
get_text are modelled as parameters of the unwrapper (the UnwrapPrims
structure): every theorem below holds for every behaviour of these helpers,
so nothing about them is assumed.  The try/except wrapper of _unwrap_html is
modelled by letting htmlToText return none for a raised exception.
-/

/-- First index of a contiguous occurrence of needle in hay. -/
def findSubIdx (hay needle : List Char) : Option ℕ :=
  (List.range (hay.length + 1)).find? (fun i => needle.isPrefixOf (hay.drop i))

/-- Split into newline-terminated lines, keeping each line's start offset. -/
def splitLinesOffAux : ℕ → List Char → ℕ → List (ℕ × List Char)
  | 0, _, _ => []
  | fuel + 1, s, off =>
    let line := s.takeWhile (fun c => c != '\n')
    if s.length ≤ line.length then [(off, line)]
    else (off, line) :: splitLinesOffAux fuel (s.drop (line.length + 1)) (off + line.length + 1)

/-- Lines of a character list with their start offsets. -/
def splitLinesOff (s : List Char) : List (ℕ × List Char) :=
  splitLinesOffAux (s.length + 1) s 0

/-- All start indices of occurrences of needle in l. -/
def occIdxs (l needle : List Char) : List ℕ :=
  (List.range (l.length + 1)).filter (fun i => needle.isPrefixOf (l.drop i))

/-- Do the needles all occur in l, in order and without overlap? -/
def inOrderAfter (l : List Char) : List (List Char) → Bool
  | [] => true
  | n :: rest =>
    match findSubIdx l n with
    | some i => inOrderAfter (l.drop (i + n.length)) rest
    | none => false

/-- End offset (within one line) of the greedy match of the Outlook header
pattern: the last subject-colon occurrence preceded by from-colon,
sent-colon and to-colon in order. -/
def outlookChainEnd (l : List Char) : Option ℕ :=
  let subj := "subject:".data
  let cands := (occIdxs l subj).filter (fun i =>
    inOrderAfter (l.take i) ["from:".data, "sent:".data, "to:".data])
  cands.getLast?.map (fun i => i + subj.length)

/-- Absolute end offset of the Outlook header pattern in the whole text
(first line containing a match). -/
def outlookHeaderEnd (t : List Char) : Option ℕ :=
  (splitLinesOff t).findSome? (fun p => (outlookChainEnd p.2).map (fun e => p.1 + e))

/-- Gmail forward marker patterns (lowercased). -/
def gmailMarker1 : List Char := "---------- forwarded message ---------".data

/-- Second Gmail forward marker. -/
def gmailMarker2 : List Char := "begin forwarded message:".data

/-- Third Gmail forward marker. -/
def gmailMarker3 : List Char := "forwarded message".data

/-- Outlook horizontal-rule marker (32 underscores). -/
def outlookRule : List Char := (List.replicate 32 '_')

/-- End position of the first forward-marker pattern that matches, trying the
patterns in source order (case-insensitive search as in the source). -/
def forwardMatchEnd (text : String) : Option ℕ :=
  let t := (strLower text).data
  match findSubIdx t gmailMarker1 with
  | some i => some (i + gmailMarker1.length)
  | none =>
  match findSubIdx t gmailMarker2 with
  | some i => some (i + gmailMarker2.length)
  | none =>
  match findSubIdx t gmailMarker3 with
  | some i => some (i + gmailMarker3.length)
  | none =>
  match outlookHeaderEnd t with
  | some e => some e
  | none => (findSubIdx t outlookRule).map (fun i => i + outlookRule.length)

/-- Result of unwrapping a forwarded email (unwrapper.py dataclass). -/
structure UnwrappedEmail where
  original_from : Option String
  original_to : Option String
  original_subject : Option String
  original_date : Option ℤ
  clean_body_text : Option String
  clean_body_html : Option String
  confidence : ℚ
  method_used : String
deriving DecidableEq, Repr

/-- The helper functions of ForwardedEmailUnwrapper that are driven by
regexes (header extraction, date parsing, body cleanup) and BeautifulSoup's
HTML-to-text conversion, as parameters: the claims proved below hold for
every behaviour of these helpers.  htmlToText returns none to model an
exception raised during HTML handling. -/
structure UnwrapPrims where
  htmlToText : String → Option String
  extractHeader : String → String → Option String
  parseDate : String → Option ℤ
  extractCleanBody : String → String

/-- First confidence signal of _calculate_confidence: original-from present
and containing an at sign. -/
def sigFrom (original_from : Option String) : Bool :=
  strTruthy original_from && (original_from.getD "").data.contains '@'

/-- Second confidence signal: original-subject present with length above 3. -/
def sigSubject (original_subject : Option String) : Bool :=
  strTruthy original_subject && decide (3 < strLen (original_subject.getD ""))

/-- Third confidence signal: original-date successfully parsed. -/
def sigDate (original_date : Option ℤ) : Bool := original_date.isSome

/-- Fourth confidence signal: cleaned body present with length above 50. -/
def sigBody (clean_body : Option String) : Bool :=
  strTruthy clean_body && decide (50 < strLen (clean_body.getD ""))

/-- The additive, capped score of _calculate_confidence as a function of the
four signals: +0.35, +0.25, +0.20, +0.20, capped at 1.0. -/
def confScore (b1 b2 b3 b4 : Bool) : ℚ :=
  let s0 : ℚ := 0
  let s1 := if b1 then qAdd s0 (mkRat 7 20) else s0
  let s2 := if b2 then qAdd s1 (mkRat 1 4) else s1
  let s3 := if b3 then qAdd s2 (mkRat 1 5) else s2
  let s4 := if b4 then qAdd s3 (mkRat 1 5) else s3
  qMin s4 1

/-- Confidence scoring of _calculate_confidence (unwrapper.py lines
297-320): additive over four signals, capped at 1.0. -/
def calculateConfidence (original_from original_subject : Option String)
    (original_date : Option ℤ) (clean_body : Option String) : ℚ :=
  confScore (sigFrom original_from) (sigSubject original_subject)
    (sigDate original_date) (sigBody clean_body)

/-- Drop the first n code points (models Python s[n:]). -/
def strDrop (s : String) (n : ℕ) : String := ⟨s.data.drop n⟩

/-- Model of _unwrap_text (unwrapper.py lines 179-219). -/
def unwrapText (p : UnwrapPrims) (text : String) : UnwrappedEmail :=
  match forwardMatchEnd text with
  | none => ⟨none, none, none, none, some text, none, 0, "no_text_forward_detected"⟩
  | some e =>
    let fc := strDrop text e
    let original_from := p.extractHeader fc "from"
    let original_to := p.extractHeader fc "to"
    let original_subject := p.extractHeader fc "subject"
    let original_date_str := p.extractHeader fc "date"
    let original_date := if strTruthy original_date_str
      then p.parseDate (original_date_str.getD "") else none
    let clean_body := p.extractCleanBody fc
    let conf := calculateConfidence original_from original_subject original_date (some clean_body)
    ⟨original_from, original_to, original_subject, original_date,
     some clean_body, none, conf, "text_forward_extraction"⟩

/-- Model of _unwrap_html (unwrapper.py lines 130-177); the surrounding try/except is
modelled by the none case of htmlToText. -/
def unwrapHtml (p : UnwrapPrims) (html : String) : UnwrappedEmail :=
  match p.htmlToText html with
  | none => ⟨none, none, none, none, none, some html, 0, "html_error"⟩
  | some text =>
    match forwardMatchEnd text with
    | none => ⟨none, none, none, none, none, some html, 0, "no_html_forward_detected"⟩
    | some e =>
      let fc := strDrop text e
      let original_from := p.extractHeader fc "from"
      let original_to := p.extractHeader fc "to"
      let original_subject := p.extractHeader fc "subject"
      let original_date_str := p.extractHeader fc "date"
      let original_date := if strTruthy original_date_str
        then p.parseDate (original_date_str.getD "") else none
      let clean_body := p.extractCleanBody fc
      let conf := calculateConfidence original_from original_subject original_date (some clean_body)
      ⟨original_from, original_to, original_subject, original_date,
       some clean_body, none, conf, "html_forward_extraction"⟩

/-- Main unwrap entry point (unwrapper.py lines 95-128): HTML path first,
surfaced only above confidence 0.6; then the plain-text path, surfaced only
above confidence 0.0; otherwise the not-forwarded pass-through at
confidence 1.0. -/
def unwrap (p : UnwrapPrims) (body_text body_html : Option String) : UnwrappedEmail :=
  let htmlResult : Option UnwrappedEmail :=
    if strTruthy body_html then
      let r := unwrapHtml p (body_html.getD "")
      if qLt (mkRat 3 5) r.confidence then some r else none
    else none
  match htmlResult with
  | some r => r
  | none =>
    let textResult : Option UnwrappedEmail :=
      if strTruthy body_text then
        let r := unwrapText p (body_text.getD "")
        if qLt 0 r.confidence then some r else none
      else none
    match textResult with
    | some r => r
    | none => ⟨none, none, none, none, body_text, body_html, 1, "no_forwarding_detected"⟩

/-! ### SequenceMatcher ratio (difflib, used by matcher._string_similarity)

Embedding of difflib.SequenceMatcher(None, a, b).ratio(): twice the total
size of the matching blocks divided by the total length.  find_longest_match
is the dynamic-programming scan of difflib, and get_matching_blocks is the
recursive split around the longest match.  The junk machinery is omitted:
with no junk parameter and inputs of fewer than 200 characters (the autojunk
threshold) difflib has no junk either, and the two post-scan extension loops
are no-ops because the scan already returns a longest block.
-/

/-- Candidate positions of the scan for one row: indices j of b in scan range
holding the current character of a, in ascending order. -/
def rowPositions (b : List Char) (c : Char) (blo bhi : ℕ) : List ℕ :=
  (((b.enum.filter (fun p => p.2 == c)).map (fun p => p.1)).filter (fun j => blo ≤ j)).takeWhile
    (fun j => j < bhi)

/-- Lookup in the running-lengths table of the scan (missing entry is 0). -/
def j2lenGet (m : List (ℕ × ℕ)) (j : ℕ) : ℕ :=
  ((m.find? (fun p => p.1 == j)).map (fun p => p.2)).getD 0

/-- Accumulator of the find_longest_match scan. -/
structure FlmAcc where
  besti : ℕ
  bestj : ℕ
  bestsize : ℕ
  j2len : List (ℕ × ℕ)

/-- One row of the find_longest_match scan (one index i of a). -/
def flmRow (b : List Char) (blo bhi : ℕ) (acc : FlmAcc) (ic : ℕ × Char) : FlmAcc :=
  let r := (rowPositions b ic.2 blo bhi).foldl
    (fun (st : List (ℕ × ℕ) × ℕ × ℕ × ℕ) j =>
      let k := (if j = 0 then 0 else j2lenGet acc.j2len (j - 1)) + 1
      let newj2len := (j, k) :: st.1
      if st.2.2.2 < k then (newj2len, ic.1 + 1 - k, j + 1 - k, k)
      else (newj2len, st.2))
    ([], acc.besti, acc.bestj, acc.bestsize)
  ⟨r.2.1, r.2.2.1, r.2.2.2, r.1⟩

/-- difflib find_longest_match on a[alo:ahi] versus b[blo:bhi] (no junk). -/
def findLongestMatch (a b : List Char) (alo ahi blo bhi : ℕ) : ℕ × ℕ × ℕ :=
  let rows := (a.enum.filter (fun p => alo ≤ p.1)).takeWhile (fun p => p.1 < ahi)
  let r := rows.foldl (flmRow b blo bhi) ⟨alo, blo, 0, []⟩
  (r.besti, r.bestj, r.bestsize)

/-- difflib get_matching_blocks, fuel-driven recursion around the longest
match (the fuel argument strictly exceeds the total scanned length, which
bounds the recursion depth). -/
def matchingBlocksAux (a b : List Char) : ℕ → ℕ → ℕ → ℕ → ℕ → List (ℕ × ℕ × ℕ)
  | 0, _, _, _, _ => []
  | fuel + 1, alo, ahi, blo, bhi =>
    if alo < ahi ∧ blo < bhi then
      match findLongestMatch a b alo ahi blo bhi with
      | (i, j, k) =>
        if k = 0 then []
        else matchingBlocksAux a b fuel alo i blo j ++
          (i, j, k) :: matchingBlocksAux a b fuel (i + k) ahi (j + k) bhi
    else []

/-- Total number of matched characters across all matching blocks. -/
def seqMatchTotal (a b : List Char) : ℕ :=
  ((matchingBlocksAux a b (a.length + b.length + 1) 0 a.length 0 b.length).map
    (fun t => t.2.2)).foldl (· + ·) 0

/-- SequenceMatcher(None, s1, s2).ratio(): 2 M / T, and 1.0 for two empty
strings. -/
def string_similarity (s1 s2 : String) : ℚ :=
  let t := s1.data.length + s2.data.length
  if t = 0 then 1 else mkRat (2 * seqMatchTotal s1.data s2.data) t

/-! ### Application matcher (matcher.py)

The database is modelled as the list of stored Application rows, in table
order (query .first() takes the first row of the filtered list).  The
user_id constructor argument is optional and is applied with Python
truthiness, exactly as the source's if self.user_id guard.  datetimes are
integer timestamps and timedelta(days = n) is n * 86400; utcnow() is passed
in as the now argument.
-/

/-- The Application columns read or written by the matcher and the
processor (models.py). -/
structure Application where
  id : ℕ
  user_id : Option ℕ
  company_name : String
  job_title : String
  location : Option String
  application_date : Option ℤ
  first_seen_date : ℤ
  current_status : String
  status_updated_at : ℤ
  action_required : Bool
  action_type : Option String
  action_deadline : Option ℤ
  action_description : Option String
  company_confidence : ℚ
  job_title_confidence : ℚ
  overall_confidence : ℚ
  latest_email_date : ℤ
  event_count : ℕ
  link_count : ℕ
  created_at : ℤ
  updated_at : Option ℤ
deriving DecidableEq, Repr

/-- Result of application matching (matcher.py dataclass). -/
structure MatchResult where
  application_id : Option ℕ
  match_type : String
  confidence : ℚ
  is_new : Bool
  should_review : Bool
  reason : String
deriving DecidableEq, Repr

/-- Python truthiness of the optional user id (0 and None are falsy). -/
def uidTruthy : Option ℕ → Bool
  | some u => u != 0
  | none => false

/-- The if self.user_id query filter of the matcher. -/
def userFilter (uid : Option ℕ) (apps : List Application) : List Application :=
  if uidTruthy uid then apps.filter (fun a => a.user_id == uid) else apps

/-- Two-decimal rendering of a confidence, modelling the percent-point-2-f
format used inside reason strings; no theorem depends on this rendering. -/
def formatConf2 (q : ℚ) : String :=
  let scaled := qMul q (mkRat 100 1)
  let n := (Int.add (Int.mul scaled.num 2) scaled.den).fdiv (Int.mul 2 scaled.den)
  toString (n.fdiv 100) ++ "." ++ (if n.emod 100 < 10 then "0" else "") ++ toString (n.emod 100)

/-- Model of _match_exact (matcher.py lines 113-142): case-insensitive equality of the
stored columns against the stripped, lowercased extracted values; first
matching row wins, at confidence 1.0 and never flagged for review.  Note the
stored columns pass through lower() only: they are not stripped. -/
def matchExact (apps : List Application) (uid : Option ℕ)
    (company job_title : String) : Option MatchResult :=
  let company_clean := strLower (strStrip company)
  let job_title_clean := strLower (strStrip job_title)
  let q := apps.filter (fun a =>
    strLower a.company_name == company_clean && strLower a.job_title == job_title_clean)
  match (userFilter uid q).head? with
  | some app => some ⟨some app.id, "exact", 1, false, false,
      "Exact match: " ++ company ++ " - " ++ job_title⟩
  | none => none

/-- Best-candidate accumulator of the fuzzy scan (matcher.py lines 158-177):
keep the candidate whose combined similarity strictly exceeds the running
best and meets the 0.80 threshold. -/
def fuzzyStep (company job_title : String) (st : Option Application × ℚ)
    (app : Application) : Option Application × ℚ :=
  let company_sim := string_similarity (strLower company) (strLower app.company_name)
  let job_title_sim := string_similarity (strLower job_title) (strLower app.job_title)
  let combined_sim := qAdd (qMul company_sim (mkRat 3 5)) (qMul job_title_sim (mkRat 2 5))
  if qLt st.2 combined_sim && qLe (mkRat 4 5) combined_sim then (some app, combined_sim) else st

/-- Model of _match_fuzzy (matcher.py lines 144-189): similarity scan over the
applications created in the last 60 days. -/
def matchFuzzy (apps : List Application) (uid : Option ℕ) (now : ℤ)
    (company job_title : String) : Option MatchResult :=
  let recent := userFilter uid (apps.filter (fun a => decide (now - 60 * 86400 ≤ a.created_at)))
  let best := recent.foldl (fuzzyStep company job_title) (none, 0)
  match best.1 with
  | some app => some ⟨some app.id, "fuzzy", best.2, false, qLt best.2 (mkRat 9 10),
      "Fuzzy match (" ++ formatConf2 best.2 ++ "): " ++ app.company_name ++ " - " ++ app.job_title⟩
  | none => none

/-- Model of _match_by_domain_and_time (matcher.py lines 191-237): LIKE-style
substring match of the cleaned company inside the stored company, within the
60-day activity window; a unique candidate is accepted at 0.75 but always
flagged for review, several candidates are ambiguous. -/
def matchByDomainAndTime (apps : List Application) (uid : Option ℕ)
    (company : String) (email_date : ℤ) : Option MatchResult :=
  let company_clean := strLower (strStrip company)
  let q := apps.filter (fun a =>
    listContainsSub (strLower a.company_name).data company_clean.data &&
    decide (email_date - 60 * 86400 ≤ a.latest_email_date))
  match userFilter uid q with
  | [app] => some ⟨some app.id, "domain_time", mkRat 3 4, false, true,
      "Single application found for " ++ company ++ " in time window"⟩
  | _ :: _ :: _ => some ⟨none, "domain_time_ambiguous", mkRat 1 2, false, true,
      "Multiple applications found for " ++ company ++ " - manual review needed"⟩
  | [] => none

/-- Best-candidate accumulator of the subject-similarity scan (threshold
0.85). -/
def subjectStep (job_title : String) (st : Option Application × ℚ)
    (app : Application) : Option Application × ℚ :=
  let similarity := string_similarity (strLower job_title) (strLower app.job_title)
  if qLt st.2 similarity && qLe (mkRat 17 20) similarity then (some app, similarity) else st

/-- Model of _match_by_subject_similarity (matcher.py lines 239-279): last-resort
job-title similarity over the last 30 days, discounted by 0.7 and always
flagged for review. -/
def matchBySubjectSimilarity (apps : List Application) (uid : Option ℕ)
    (job_title : String) (email_date : ℤ) : Option MatchResult :=
  let recent := userFilter uid (apps.filter (fun a =>
    decide (email_date - 30 * 86400 ≤ a.latest_email_date)))
  let best := recent.foldl (subjectStep job_title) (none, 0)
  match best.1 with
  | some app => some ⟨some app.id, "subject_similarity", qMul best.2 (mkRat 7 10), false, true,
      "Job title similarity (" ++ formatConf2 best.2 ++ "): " ++ app.job_title⟩
  | none => none

/-! ### Extraction result (extractor.py dataclasses)

The status, email-type, action-type and link-type enums of models.py are
string-valued Python enums; they are modelled directly by their string
values. -/

/-- Extracted link with type classification. -/
structure ExtractedLink where
  url : String
  link_type : String
  link_text : Option String
  confidence : ℚ
deriving DecidableEq, Repr

/-- Complete extraction result from an email (extractor.py ExtractedData). -/
structure ExtractedData where
  company_name : Option String := none
  job_title : Option String := none
  location : Option String := none
  email_type : String := "UNKNOWN"
  status : String := "OTHER_UPDATE"
  status_date : Option ℤ := none
  action_required : Bool := false
  action_type : Option String := none
  action_deadline : Option ℤ := none
  action_description : Option String := none
  links : List ExtractedLink := []
  company_confidence : ℚ := 0
  job_title_confidence : ℚ := 0
  overall_confidence : ℚ := 0
  extraction_method : String := "rule_based"
  parser_version : String := "1.0.0"
deriving DecidableEq, Repr

/-- Model of _handle_no_match (matcher.py lines 281-307): with no candidate from any
strategy, the decision is driven by the extraction's overall confidence
against the 0.6 floor. -/
def handleNoMatch (extracted_data : ExtractedData) : MatchResult :=
  if qLe (mkRat 3 5) extracted_data.overall_confidence then
    ⟨none, "no_match", extracted_data.overall_confidence, true, false,
      "No existing match found - creating new application"⟩
  else
    ⟨none, "no_match_low_confidence", extracted_data.overall_confidence, false, true,
      "Low extraction confidence (" ++ formatConf2 extracted_data.overall_confidence ++
        ") - manual review required"⟩

/-- match (matcher.py lines 65-111): the four strategies in strict priority
order, guarded by Python truthiness of the extracted company and job title,
falling back to _handle_no_match. -/
def matcherMatch (apps : List Application) (uid : Option ℕ) (now : ℤ)
    (extracted_data : ExtractedData) (email_date : ℤ) : MatchResult :=
  let company := extracted_data.company_name
  let job_title := extracted_data.job_title
  let r1 := if strTruthy company && strTruthy job_title then
    matchExact apps uid (company.getD "") (job_title.getD "") else none
  let r2 := if strTruthy company && strTruthy job_title then
    matchFuzzy apps uid now (company.getD "") (job_title.getD "") else none
  let r3 := if strTruthy company then
    matchByDomainAndTime apps uid (company.getD "") email_date else none
  let r4 := if strTruthy job_title then
    matchBySubjectSimilarity apps uid (job_title.getD "") email_date else none
  ((((r1.orElse (fun _ => r2)).orElse (fun _ => r3)).orElse (fun _ => r4)).getD
    (handleNoMatch extracted_data))

/-! ### Extractor entry point (extractor.py lines 142-170)

The deterministic rule-based engine (a large regex cascade) and the optional
LLM fallback are the two components of extract.  The claims about extract
quantify over both, so they appear as parameters: ruleBased stands for
_extract_rule_based and the optional llm_client-driven fallback stands for
_extract_llm_fallback, which returns none on any parse or call failure.
-/

/-- extract: run the deterministic path, then the fallback only when the
deterministic overall confidence is below 0.85 and a fallback is configured,
adopting the fallback result only at strictly higher confidence. -/
def extractorExtract
    (ruleBased : String → String → String → Option ℤ → ExtractedData)
    (llm_client : Option (String → String → String → Option ExtractedData))
    (subject body from_address : String) (date : Option ℤ) : ExtractedData :=
  let result := ruleBased subject body from_address date
  if qLt result.overall_confidence (mkRat 17 20) then
    match llm_client with
    | some llm =>
      match llm subject body from_address with
      | some llm_result =>
        if qLt result.overall_confidence llm_result.overall_confidence then llm_result
        else result
      | none => result
    | none => result
  else result

/-! ### Processing pipeline (processor.py)

The SQLAlchemy session is modelled explicitly: the DB structure holds the
committed table contents, a call works on local values, and each terminal
branch of process_email appends its writes in one step, modelling the
commit.  An unexpected exception at any stage is modelled by the fault
argument, a stage name plus a message: when execution reaches that stage the
exception handler of process_email runs, the session is rolled back (the
committed state is returned unchanged: no commit has happened earlier in the
call, so rollback restores the entry state), the in-memory raw email is
annotated via annotateError (the row was never durably inserted, so the
annotation commit has nothing durable to write), and a failed
ProcessingResult is returned instead of propagating the exception.
-/

/-- The RawEmail columns read or written by the processor (models.py). -/
structure RawEmail where
  id : ℕ
  user_id : Option ℕ
  outlook_message_id : String
  outlook_conversation_id : Option String
  received_datetime : ℤ
  outlook_from : String
  outlook_to : String
  outlook_subject : String
  body_text : Option String
  body_html : Option String
  original_from : Option String
  original_subject : Option String
  original_sent_date : Option ℤ
  clean_body_text : Option String
  clean_body_html : Option String
  unwrap_confidence : Option ℚ
  email_fingerprint : Option String
  email_type : Option String
  extracted_data : Option ExtractedData
  overall_confidence : Option ℚ
  parser_version : Option String
  processed : Bool
  processing_error : Option String
  processed_at : Option ℤ
deriving DecidableEq, Repr

/-- ApplicationEvent columns written by the processor. -/
structure AppEvent where
  id : ℕ
  application_id : ℕ
  raw_email_id : ℕ
  event_type : String
  status : String
  event_date : ℤ
  title : String
  description : Option String
  confidence : ℚ
deriving DecidableEq, Repr

/-- Link columns written by the processor. -/
structure LinkRec where
  id : ℕ
  application_id : ℕ
  raw_email_id : ℕ
  url : String
  link_type : String
  link_text : Option String
  confidence : ℚ
  expires_at : Option ℤ
deriving DecidableEq, Repr

/-- ManualReview columns written by the processor. -/
structure ManualReviewRec where
  id : ℕ
  user_id : Option ℕ
  raw_email_id : ℕ
  application_id : Option ℕ
  reason : String
  suggested_company : Option String
  suggested_job_title : Option String
  suggested_status : String
  confidence : ℚ
  reviewed : Bool
deriving DecidableEq, Repr

/-- Committed database state: table contents plus autoincrement counters. -/
structure DB where
  rawEmails : List RawEmail
  applications : List Application
  events : List AppEvent
  links : List LinkRec
  reviews : List ManualReviewRec
  nextRawId : ℕ
  nextAppId : ℕ
  nextEventId : ℕ
  nextLinkId : ℕ
  nextReviewId : ℕ
deriving DecidableEq, Repr

/-- Result of processing a single email (processor.py dataclass). -/
structure ProcessingResult where
  raw_email_id : ℕ
  success : Bool
  application_id : Option ℕ
  is_new_application : Bool
  needs_manual_review : Bool
  error : Option String
  confidence : ℚ
deriving DecidableEq, Repr

/-- One raw email handed to process_email by the mail client. -/
structure InboundEmail where
  outlook_message_id : String
  outlook_from : String
  outlook_to : String
  outlook_subject : String
  received_datetime : ℤ
  body_text : Option String
  body_html : Option String
  conversation_id : Option String
deriving DecidableEq, Repr

/-- Pipeline environment: the unwrapper primitives, the two extractor
components, the wall clock and the owning user. -/
structure ProcessorEnv where
  unwrapPrims : UnwrapPrims
  ruleBased : String → String → String → Option ℤ → ExtractedData
  llm_client : Option (String → String → String → Option ExtractedData)
  now : ℤ
  user_id : Option ℕ

/-- Pipeline stages at which an unexpected exception can arise (before any
commit; every commit in process_email is immediately followed by a return). -/
inductive Stage where
  | dedupQuery
  | insertRaw
  | unwrapStage
  | extractStage
  | fingerprintStage
  | matchStage
  | persistStage
deriving DecidableEq, Repr

/-- Does the injected fault fire at this stage? -/
def faultAt (fault : Option (Stage × String)) (s : Stage) : Option String :=
  match fault with
  | some f => if f.1 = s then some f.2 else none
  | none => none

/-- The error annotation of the exception handler (processor.py lines
277-279): record the message on the raw email and leave it unprocessed. -/
def annotateError (r : RawEmail) (msg : String) : RawEmail :=
  { r with processing_error := some msg, processed := false }

/-- The exception handler of process_email (lines 272-293): roll the session
back to the committed entry state, annotate the in-memory raw email (never
durably inserted at any point where an exception can arise, so nothing
further is persisted), and return a failed ProcessingResult. -/
def handleFailure (db0 : DB) (raw : Option RawEmail) (msg : String) : DB × ProcessingResult :=
  let annotated := raw.map (fun r => annotateError r msg)
  (db0, ⟨(annotated.map (fun r => r.id)).getD 0, false, none, false, false, some msg, 0⟩)

/-- Application id recorded on the first event of a raw email, as read by the
existing-email short-circuits (existing.events[0].application_id). -/
def firstEventAppId (db : DB) (rawId : ℕ) : Option ℕ :=
  ((db.events.filter (fun ev => ev.raw_email_id == rawId)).head?).map
    (fun ev => ev.application_id)

/-- The unwrap step of the pipeline on one inbound email. -/
def pipelineUnwrap (env : ProcessorEnv) (e : InboundEmail) : UnwrappedEmail :=
  unwrap env.unwrapPrims e.body_text e.body_html

/-- The content fingerprint the pipeline computes for an inbound email
(processor.py lines 166-172): unwrapped fields preferred, envelope fields as
fallback, body truncated to 500 characters. -/
def pipelineFingerprint (env : ProcessorEnv) (e : InboundEmail) : String :=
  let uw := pipelineUnwrap env e
  generate_email_fingerprint (some (orStr uw.original_from e.outlook_from))
    (some (orStr uw.original_subject e.outlook_subject)) uw.original_date
    (some (strTake (orStr uw.clean_body_text (orStr e.body_text "")) 500))

/-- Model of _create_application (processor.py lines 295-324). -/
def createApplication (uid : Option ℕ) (ed : ExtractedData) (email_date : ℤ)
    (aid : ℕ) (now : ℤ) : Application :=
  { id := aid
    user_id := uid
    company_name := orStr ed.company_name "Unknown Company"
    job_title := orStr ed.job_title "Unknown Position"
    location := ed.location
    application_date := some email_date
    first_seen_date := email_date
    current_status := ed.status
    status_updated_at := email_date
    action_required := ed.action_required
    action_type := ed.action_type
    action_deadline := ed.action_deadline
    action_description := ed.action_description
    company_confidence := ed.company_confidence
    job_title_confidence := ed.job_title_confidence
    overall_confidence := ed.overall_confidence
    latest_email_date := email_date
    event_count := 0
    link_count := ed.links.length
    created_at := now
    updated_at := none }

/-- Model of _update_application (processor.py lines 326-351). -/
def updateApplication (app : Application) (ed : ExtractedData)
    (email_date now : ℤ) : Application :=
  let a1 := if ed.status != app.current_status then
    { app with current_status := ed.status, status_updated_at := email_date } else app
  let a2 := if ed.action_required then
    { a1 with
      action_required := true
      action_type := ed.action_type
      action_deadline := ed.action_deadline
      action_description := ed.action_description }
    else a1
  let a3 := if decide (a2.latest_email_date < email_date) then
    { a2 with latest_email_date := email_date } else a2
  { a3 with
    event_count := a3.event_count + 1
    link_count := a3.link_count + ed.links.length
    updated_at := some now }

/-- Event title chosen by _create_event from the email type. -/
def eventTitle (email_type : String) : String :=
  if email_type == "APPLICATION_CONFIRMATION" then "Application Received"
  else if email_type == "REJECTION" then "Application Rejected"
  else if email_type == "ASSESSMENT_INVITE" then "Assessment Invited"
  else if email_type == "INTERVIEW_REQUEST" then "Interview Requested"
  else if email_type == "INTERVIEW_CONFIRMATION" then "Interview Scheduled"
  else if email_type == "OFFER" then "Offer Extended"
  else "Update"

/-- Model of _create_event (processor.py lines 353-385). -/
def createEvent (applicationId : ℕ) (raw : RawEmail) (ed : ExtractedData)
    (event_date : ℤ) (eid : ℕ) : AppEvent :=
  { id := eid
    application_id := applicationId
    raw_email_id := raw.id
    event_type := ed.email_type
    status := ed.status
    event_date := event_date
    title := eventTitle ed.email_type
    description := if strTruthy raw.clean_body_text
      then some (strTake (raw.clean_body_text.getD "") 500) else none
    confidence := ed.overall_confidence }

/-- Model of _create_links (processor.py lines 387-404). -/
def createLinks (applicationId rawId : ℕ) (ed : ExtractedData) (firstId : ℕ) : List LinkRec :=
  ed.links.enum.map (fun p =>
    { id := firstId + p.1
      application_id := applicationId
      raw_email_id := rawId
      url := p.2.url
      link_type := p.2.link_type
      link_text := p.2.link_text
      confidence := p.2.confidence
      expires_at := if ed.action_required then ed.action_deadline else none })

/-- Model of _create_manual_review (processor.py lines 406-426). -/
def createManualReview (uid : Option ℕ) (rawId : ℕ) (ed : ExtractedData)
    (mr : MatchResult) (revId : ℕ) : ManualReviewRec :=
  { id := revId
    user_id := uid
    raw_email_id := rawId
    application_id := mr.application_id
    reason := mr.reason
    suggested_company := ed.company_name
    suggested_job_title := ed.job_title
    suggested_status := ed.status
    confidence := mr.confidence
    reviewed := false }

/-- process_email (processor.py lines 77-293), with the injected fault
deciding at which stage (if any) an unexpected exception is raised. -/
def processEmailF (env : ProcessorEnv) (fault : Option (Stage × String))
    (db : DB) (e : InboundEmail) : DB × ProcessingResult :=
  match faultAt fault .dedupQuery with
  | some m => handleFailure db none m
  | none =>
  match db.rawEmails.find? (fun r =>
      r.outlook_message_id == e.outlook_message_id && r.user_id == env.user_id) with
  | some existing =>
    (db, ⟨existing.id, true, firstEventAppId db existing.id, false, false, none,
      existing.overall_confidence.getD 0⟩)
  | none =>
  let rid := db.nextRawId
  let raw0 : RawEmail :=
    { id := rid
      user_id := env.user_id
      outlook_message_id := e.outlook_message_id
      outlook_conversation_id := e.conversation_id
      received_datetime := e.received_datetime
      outlook_from := e.outlook_from
      outlook_to := e.outlook_to
      outlook_subject := e.outlook_subject
      body_text := e.body_text
      body_html := e.body_html
      original_from := none
      original_subject := none
      original_sent_date := none
      clean_body_text := none
      clean_body_html := none
      unwrap_confidence := none
      email_fingerprint := none
      email_type := none
      extracted_data := none
      overall_confidence := none
      parser_version := none
      processed := false
      processing_error := none
      processed_at := none }
  match faultAt fault .insertRaw with
  | some m => handleFailure db none m
  | none =>
  match faultAt fault .unwrapStage with
  | some m => handleFailure db (some raw0) m
  | none =>
  let uw := pipelineUnwrap env e
  let raw1 := { raw0 with
    original_from := uw.original_from
    original_subject := uw.original_subject
    original_sent_date := uw.original_date
    clean_body_text := uw.clean_body_text
    clean_body_html := uw.clean_body_html
    unwrap_confidence := some uw.confidence }
  match faultAt fault .extractStage with
  | some m => handleFailure db (some raw1) m
  | none =>
  let extraction_subject := orStr uw.original_subject e.outlook_subject
  let extraction_body := orStr uw.clean_body_text (orStr e.body_text "")
  let extraction_from := orStr uw.original_from e.outlook_from
  let extraction_date := uw.original_date.getD e.received_datetime
  let ed := extractorExtract env.ruleBased env.llm_client
    extraction_subject extraction_body extraction_from (some extraction_date)
  match faultAt fault .fingerprintStage with
  | some m => handleFailure db (some raw1) m
  | none =>
  let fp := pipelineFingerprint env e
  let raw2 := { raw1 with
    email_fingerprint := some fp
    email_type := some ed.email_type
    extracted_data := some ed
    overall_confidence := some ed.overall_confidence
    parser_version := some ed.parser_version }
  match db.rawEmails.find? (fun r =>
      r.email_fingerprint == some fp && r.id != rid && r.user_id == env.user_id) with
  | some existing_fingerprint =>
    let raw3 := { raw2 with
      processed := true
      processing_error := some "Duplicate (fingerprint match)" }
    ({ db with rawEmails := db.rawEmails ++ [raw3], nextRawId := rid + 1 },
     ⟨rid, true, firstEventAppId db existing_fingerprint.id, false, false,
      some "Duplicate email", ed.overall_confidence⟩)
  | none =>
  match faultAt fault .matchStage with
  | some m => handleFailure db (some raw2) m
  | none =>
  let mr := matcherMatch db.applications env.user_id env.now ed extraction_date
  match faultAt fault .persistStage with
  | some m => handleFailure db (some raw2) m
  | none =>
  if mr.should_review then
    let review := createManualReview env.user_id rid ed mr db.nextReviewId
    let rawp := { raw2 with processed := true }
    ({ db with
        rawEmails := db.rawEmails ++ [rawp]
        reviews := db.reviews ++ [review]
        nextRawId := rid + 1
        nextReviewId := db.nextReviewId + 1 },
     ⟨rid, true, mr.application_id, false, true, none, mr.confidence⟩)
  else if mr.is_new then
    let app := createApplication env.user_id ed extraction_date db.nextAppId env.now
    let ev := createEvent app.id raw2 ed extraction_date db.nextEventId
    let newLinks := createLinks app.id rid ed db.nextLinkId
    let rawp := { raw2 with processed := true, processed_at := some env.now }
    ({ db with
        rawEmails := db.rawEmails ++ [rawp]
        applications := db.applications ++ [app]
        events := db.events ++ [ev]
        links := db.links ++ newLinks
        nextRawId := rid + 1
        nextAppId := db.nextAppId + 1
        nextEventId := db.nextEventId + 1
        nextLinkId := db.nextLinkId + newLinks.length },
     ⟨rid, true, some app.id, true, false, none, ed.overall_confidence⟩)
  else
    match mr.application_id.bind (fun aid => db.applications.find? (fun a => a.id == aid)) with
    | some app =>
      let app' := updateApplication app ed extraction_date env.now
      let ev := createEvent app.id raw2 ed extraction_date db.nextEventId
      let newLinks := createLinks app.id rid ed db.nextLinkId
      let rawp := { raw2 with processed := true, processed_at := some env.now }
      ({ db with
          rawEmails := db.rawEmails ++ [rawp]
          applications := db.applications.map (fun a => if a.id == app.id then app' else a)
          events := db.events ++ [ev]
          links := db.links ++ newLinks
          nextRawId := rid + 1
          nextEventId := db.nextEventId + 1
          nextLinkId := db.nextLinkId + newLinks.length },
       ⟨rid, true, some app.id, false, false, none, ed.overall_confidence⟩)
    | none =>
      handleFailure db (some raw2)
        ("Application " ++
          (match mr.application_id with
           | some aid => toString aid
           | none => "None") ++ " not found")

/-- process_batch (processor.py lines 428-447): process the emails in order,
threading the database state; the fault component of each entry plays the
role of an unexpected failure while that email is processed. -/
def processBatch (env : ProcessorEnv) (db : DB)
    (emails : List (InboundEmail × Option (Stage × String))) : DB × List ProcessingResult :=
  emails.foldl (fun acc em =>
    let r := processEmailF env em.2 acc.1 em.1
    (r.1, acc.2 ++ [r.2])) (db, [])

/-! ### Concrete fixtures used by witnesses and counterexamples -/

/-- Trivial unwrapper primitives: HTML-to-text is the identity, no header is
ever extracted. -/
def trivPrims : UnwrapPrims :=
  { htmlToText := fun h => some h
    extractHeader := fun _ _ => none
    parseDate := fun _ => none
    extractCleanBody := fun _ => "" }

/-- A stored application of user 1 for Acme / Dev. -/
def appExact : Application :=
  { id := 7
    user_id := some 1
    company_name := "Acme"
    job_title := "Dev"
    location := none
    application_date := none
    first_seen_date := 0
    current_status := "APPLIED_RECEIVED"
    status_updated_at := 0
    action_required := false
    action_type := none
    action_deadline := none
    action_description := none
    company_confidence := 0
    job_title_confidence := 0
    overall_confidence := 0
    latest_email_date := 0
    event_count := 0
    link_count := 0
    created_at := 0
    updated_at := none }

/-- A stored application whose company name carries a leading space, created
and last active far outside every matching time window. -/
def appStale : Application := { appExact with company_name := " acme", job_title := "dev" }

/-- Extracted fact naming acme / dev at overall confidence 0.9. -/
def edAcmeDev : ExtractedData :=
  { company_name := some "acme", job_title := some "dev", overall_confidence := mkRat 9 10 }

/-- Extracted fact naming Acme / Dev at overall confidence 0.9. -/
def edExactW : ExtractedData :=
  { company_name := some "Acme", job_title := some "Dev", overall_confidence := mkRat 9 10 }

/-- Extracted fact with nothing but an overall confidence of 0.59. -/
def edFloor : ExtractedData := { overall_confidence := mkRat 59 100 }

/-- A deterministic extractor returning confidence 0.5. -/
def rbLow : String → String → String → Option ℤ → ExtractedData :=
  fun _ _ _ _ => { overall_confidence := mkRat 1 2 }

/-- A deterministic extractor returning confidence 0.9. -/
def rbHigh : String → String → String → Option ℤ → ExtractedData :=
  fun _ _ _ _ => { company_name := some "Acme", job_title := some "Dev",
                   overall_confidence := mkRat 9 10 }

/-- A fallback extractor returning confidence 0.9. -/
def llmBetter : String → String → String → Option ExtractedData :=
  fun _ _ _ => some { company_name := some "Acme", overall_confidence := mkRat 9 10 }

/-- The pipeline environment of the concrete processing scenarios. -/
def envW : ProcessorEnv :=
  { unwrapPrims := trivPrims
    ruleBased := rbHigh
    llm_client := none
    now := 1000
    user_id := some 1 }

/-- The second inbound email of the dedupe scenario: transport id m2, same
envelope fields and body as the already-processed email. -/
def emailDup : InboundEmail :=
  { outlook_message_id := "m2"
    outlook_from := "a@b.com"
    outlook_to := "me@x.com"
    outlook_subject := "Job"
    received_datetime := 500
    body_text := some "hello body"
    body_html := none
    conversation_id := none }

/-- The already-processed raw email of the dedupe scenario: transport id m1,
same logical content as emailDup, hence the same stored fingerprint. -/
def rawProcessed : RawEmail :=
  { id := 1
    user_id := some 1
    outlook_message_id := "m1"
    outlook_conversation_id := none
    received_datetime := 500
    outlook_from := "a@b.com"
    outlook_to := "me@x.com"
    outlook_subject := "Job"
    body_text := some "hello body"
    body_html := none
    original_from := none
    original_subject := none
    original_sent_date := none
    clean_body_text := some "hello body"
    clean_body_html := none
    unwrap_confidence := some 1
    email_fingerprint := some (pipelineFingerprint envW emailDup)
    email_type := some "UNKNOWN"
    extracted_data := none
    overall_confidence := some (mkRat 9 10)
    parser_version := some "1.0.0"
    processed := true
    processing_error := none
    processed_at := some 1000 }

/-- Database state of the dedupe scenario: the first email has been
processed into an application with its event, and its raw record carries the
content fingerprint. -/
def dbDup : DB :=
  { rawEmails := [rawProcessed]
    applications := [appExact]
    events := [{ id := 1, application_id := 7, raw_email_id := 1, event_type := "UNKNOWN",
                 status := "OTHER_UPDATE", event_date := 500, title := "Update",
                 description := some "hello body", confidence := mkRat 9 10 }]
    links := []
    reviews := []
    nextRawId := 2
    nextAppId := 8
    nextEventId := 2
    nextLinkId := 1
    nextReviewId := 1 }

/-! ### Helper lemmas -/

theorem hexNibble_mem (n : ℕ) : hexNibble n ∈ "0123456789abcdef".data := by
  unfold hexNibble
  rw [List.getD_eq_getElem?_getD]
  rcases h : "0123456789abcdef".data[n]? with _ | c
  · simp only [Option.getD_none]
    decide
  · simp only [Option.getD_some]
    exact List.getElem?_mem h

theorem wordHex_length (w : ℕ) : (wordHex w).length = 8 := by
  simp [wordHex]

theorem wordHex_hex (w : ℕ) : ∀ ch ∈ wordHex w, ch ∈ "0123456789abcdef".data := by
  intro ch hch
  rcases List.mem_map.mp hch with ⟨x, _, rfl⟩
  exact hexNibble_mem _

theorem sha256HexList_length (msg : List ℕ) : (sha256HexList msg).length = 64 := by
  unfold sha256HexList
  simp [List.length_append, wordHex_length]

theorem sha256HexList_hex (msg : List ℕ) :
    ∀ ch ∈ sha256HexList msg, ch ∈ "0123456789abcdef".data := by
  unfold sha256HexList
  intro ch hch
  simp only [List.mem_append] at hch
  rcases hch with ((((((h | h) | h) | h) | h) | h) | h) | h <;> exact wordHex_hex _ ch h

theorem confScore_mono :
    ∀ a b c d a' b' c' d' : Bool, (a = true → a' = true) → (b = true → b' = true) →
      (c = true → c' = true) → (d = true → d' = true) →
      confScore a b c d ≤ confScore a' b' c' d' := by
  decide

theorem strTake_take (s : String) (n : ℕ) : strTake (strTake s n) n = strTake s n := by
  simp [strTake, List.take_take]

/-! ### Claim theorems -/

/-- C3 counterexample: the post-processing cleanup maps the candidate
"Acme Recruiting Team" to "Acme Recruiting", not to "Acme": the anchored
substitution removes only the one trailing noise word. -/
theorem company_cleanup_counterexample :
    cleanupCompanyName "Acme Recruiting Team" = "Acme Recruiting" ∧
    cleanupCompanyName "Acme Recruiting Team" ≠ "Acme" := by
  decide

/-- C3 (amended): the post-processing cleanup of trailing noise words strips
exactly one trailing noise word, so the candidate "Acme Recruiting Team"
yields the company name "Acme Recruiting". -/
theorem company_cleanup_acme :
    cleanupCompanyName "Acme Recruiting Team" = "Acme Recruiting" := by
  decide

/-- C5: the unwrap confidence score is monotone in the four extraction
signals (original-from containing an at sign, original-subject longer than
3, parsed original-date, cleaned body longer than 50, weighted 0.35, 0.25,
0.20, 0.20 and capped at 1): whenever every signal of the first outcome also
holds in the second, the second confidence is at least the first. -/
theorem unwrap_confidence_monotone
    (f1 s1 b1 f2 s2 b2 : Option String) (d1 d2 : Option ℤ)
    (hf : sigFrom f1 = true → sigFrom f2 = true)
    (hs : sigSubject s1 = true → sigSubject s2 = true)
    (hd : sigDate d1 = true → sigDate d2 = true)
    (hb : sigBody b1 = true → sigBody b2 = true) :
    calculateConfidence f1 s1 d1 b1 ≤ calculateConfidence f2 s2 d2 b2 := by
  unfold calculateConfidence
  exact confScore_mono _ _ _ _ _ _ _ _ hf hs hd hb

/-- C5 witness: adding the from, subject, date and body signals to a
signal-less outcome does not decrease the confidence. -/
theorem unwrap_confidence_monotone_witness :
    calculateConfidence none none none none ≤
      calculateConfidence (some "a@b.com") (some "Hello offer") (some 0)
        (some ⟨List.replicate 60 'x'⟩) :=
  unwrap_confidence_monotone none none none (some "a@b.com") (some "Hello offer")
    (some ⟨List.replicate 60 'x'⟩) none (some 0)
    (by decide) (by decide) (by decide) (by decide)

/-- C6: the fingerprint is deterministic (a pure function of its inputs,
independent of call time), always a 64-character string of lowercase hex
digits, and depends on the body only through its first 500 characters, with
missing fields contributing the empty string to the pipe-joined input. -/
theorem fingerprint_stable (a b : Option String) (c : Option ℤ) (d : Option String) :
    generate_email_fingerprint a b c d = generate_email_fingerprint a b c d ∧
    strLen (generate_email_fingerprint a b c d) = 64 ∧
    (∀ ch ∈ (generate_email_fingerprint a b c d).data, ch ∈ "0123456789abcdef".data) ∧
    generate_email_fingerprint a b c d =
      generate_email_fingerprint a b c (some (strTake (d.getD "") 500)) := by
  refine ⟨rfl, ?_, ?_, ?_⟩
  · unfold generate_email_fingerprint sha256Hex strLen
    exact sha256HexList_length _
  · unfold generate_email_fingerprint sha256Hex
    exact sha256HexList_hex _
  · unfold generate_email_fingerprint
    rw [Option.getD_some, strTake_take]

/-- C7: extract consults the fallback only when the deterministic result's
overall confidence is strictly below 0.85 and a fallback is configured; the
fallback result replaces the deterministic one only at strictly greater
confidence; with no fallback configured the deterministic result is returned
unchanged (extract is a total function, so no error can escape). -/
theorem extract_fallback_policy
    (ruleBased : String → String → String → Option ℤ → ExtractedData)
    (llm_client : Option (String → String → String → Option ExtractedData))
    (subject body from_address : String) (date : Option ℤ) :
    (llm_client = none →
      extractorExtract ruleBased llm_client subject body from_address date =
        ruleBased subject body from_address date) ∧
    (qLe (mkRat 17 20) (ruleBased subject body from_address date).overall_confidence = true →
      extractorExtract ruleBased llm_client subject body from_address date =
        ruleBased subject body from_address date) ∧
    (∀ llm, llm_client = some llm →
      qLt (ruleBased subject body from_address date).overall_confidence (mkRat 17 20) = true →
      extractorExtract ruleBased llm_client subject body from_address date =
        (match llm subject body from_address with
         | some llm_result =>
           if qLt (ruleBased subject body from_address date).overall_confidence
               llm_result.overall_confidence then llm_result
           else ruleBased subject body from_address date
         | none => ruleBased subject body from_address date)) := by
  refine ⟨?_, ?_, ?_⟩
  · intro h
    subst h
    simp only [extractorExtract]
    split <;> rfl
  · intro h
    have hlt : qLt (ruleBased subject body from_address date).overall_confidence
        (mkRat 17 20) = false := by
      unfold qLe at h
      unfold qLt
      simpa using h
    simp [extractorExtract, hlt]
  · intro llm hllm hlt
    subst hllm
    simp [extractorExtract, hlt]

/-- C7 witness: the three regimes at concrete inputs: no fallback configured,
a confident deterministic result, and a low-confidence deterministic result
with a strictly better fallback. -/
theorem extract_fallback_policy_witness :
    (extractorExtract rbLow none "s" "b" "f" none = rbLow "s" "b" "f" none) ∧
    (extractorExtract rbHigh (some llmBetter) "s" "b" "f" none = rbHigh "s" "b" "f" none) ∧
    (extractorExtract rbLow (some llmBetter) "s" "b" "f" none =
      (match llmBetter "s" "b" "f" with
       | some llm_result =>
         if qLt (rbLow "s" "b" "f" none).overall_confidence llm_result.overall_confidence
           then llm_result else rbLow "s" "b" "f" none
       | none => rbLow "s" "b" "f" none)) :=
  ⟨(extract_fallback_policy rbLow none "s" "b" "f" none).1 rfl,
   (extract_fallback_policy rbHigh (some llmBetter) "s" "b" "f" none).2.1 (by decide),
   (extract_fallback_policy rbLow (some llmBetter) "s" "b" "f" none).2.2 llmBetter rfl (by decide)⟩

/-- C1: when no matching strategy produces a result, the Matcher's decision
is _handle_no_match, driven solely by the extraction's overall confidence
against the 0.6 floor: the confidence is carried forward unchanged, the
result is new exactly when the confidence reaches 0.6, flagged for review
exactly otherwise; in particular at 0.59 it is not new and flagged for
review, and at 0.60 it is new and not flagged. -/
theorem matcher_no_match_floor (apps : List Application) (uid : Option ℕ) (now : ℤ)
    (ed : ExtractedData) (email_date : ℤ)
    (h1 : (if strTruthy ed.company_name && strTruthy ed.job_title then
      matchExact apps uid (ed.company_name.getD "") (ed.job_title.getD "") else none) = none)
    (h2 : (if strTruthy ed.company_name && strTruthy ed.job_title then
      matchFuzzy apps uid now (ed.company_name.getD "") (ed.job_title.getD "") else none) = none)
    (h3 : (if strTruthy ed.company_name then
      matchByDomainAndTime apps uid (ed.company_name.getD "") email_date else none) = none)
    (h4 : (if strTruthy ed.job_title then
      matchBySubjectSimilarity apps uid (ed.job_title.getD "") email_date else none) = none) :
    matcherMatch apps uid now ed email_date = handleNoMatch ed ∧
    (matcherMatch apps uid now ed email_date).confidence = ed.overall_confidence ∧
    (matcherMatch apps uid now ed email_date).is_new =
      qLe (mkRat 3 5) ed.overall_confidence ∧
    (matcherMatch apps uid now ed email_date).should_review =
      !(qLe (mkRat 3 5) ed.overall_confidence) ∧
    (ed.overall_confidence = mkRat 59 100 →
      (matcherMatch apps uid now ed email_date).is_new = false ∧
      (matcherMatch apps uid now ed email_date).should_review = true) ∧
    (ed.overall_confidence = mkRat 3 5 →
      (matcherMatch apps uid now ed email_date).is_new = true ∧
      (matcherMatch apps uid now ed email_date).should_review = false) := by
  have hm : matcherMatch apps uid now ed email_date = handleNoMatch ed := by
    simp only [matcherMatch]
    rw [h1, h2, h3, h4]
    rfl
  have hconf : (handleNoMatch ed).confidence = ed.overall_confidence := by
    unfold handleNoMatch
    split <;> rfl
  have hnew : (handleNoMatch ed).is_new = qLe (mkRat 3 5) ed.overall_confidence := by
    unfold handleNoMatch
    rcases h : qLe (mkRat 3 5) ed.overall_confidence with _ | _ <;> simp [h]
  have hrev : (handleNoMatch ed).should_review = !(qLe (mkRat 3 5) ed.overall_confidence) := by
    unfold handleNoMatch
    rcases h : qLe (mkRat 3 5) ed.overall_confidence with _ | _ <;> simp [h]
  refine ⟨hm, hm ▸ hconf, hm ▸ hnew, hm ▸ hrev, ?_, ?_⟩
  · intro h59
    rw [hm, hnew, hrev, h59]
    decide
  · intro h60
    rw [hm, hnew, hrev, h60]
    decide

/-- C1 witness: with an empty application store every strategy yields
nothing, and an extraction of overall confidence 0.59 is routed to review
while not creating a new application, carrying the 0.59 forward. -/
theorem matcher_no_match_floor_witness :
    matcherMatch [] (some 1) 0 edFloor 0 = handleNoMatch edFloor ∧
    (matcherMatch [] (some 1) 0 edFloor 0).confidence = edFloor.overall_confidence ∧
    (matcherMatch [] (some 1) 0 edFloor 0).is_new =
      qLe (mkRat 3 5) edFloor.overall_confidence ∧
    (matcherMatch [] (some 1) 0 edFloor 0).should_review =
      !(qLe (mkRat 3 5) edFloor.overall_confidence) ∧
    (edFloor.overall_confidence = mkRat 59 100 →
      (matcherMatch [] (some 1) 0 edFloor 0).is_new = false ∧
      (matcherMatch [] (some 1) 0 edFloor 0).should_review = true) ∧
    (edFloor.overall_confidence = mkRat 3 5 →
      (matcherMatch [] (some 1) 0 edFloor 0).is_new = true ∧
      (matcherMatch [] (some 1) 0 edFloor 0).should_review = false) :=
  matcher_no_match_floor [] (some 1) 0 edFloor 0 rfl rfl rfl rfl

/-- C2 (amended): whenever some stored application of the user's store has
its lowercased (stored, untrimmed) company name and job title equal to the
extracted company and job title trimmed and lowercased, the Matcher returns
the first such application with match type exact, confidence 1.0, not new
and not flagged for review, regardless of whether fuzzy, domain/time or
subject-similarity candidates also exist. -/
theorem matcher_exact_first_match (apps : List Application) (uid : Option ℕ) (now : ℤ)
    (ed : ExtractedData) (email_date : ℤ) (c t : String) (app : Application)
    (hc : ed.company_name = some c) (ht : ed.job_title = some t)
    (hct : strTruthy ed.company_name = true) (htt : strTruthy ed.job_title = true)
    (hfind : (userFilter uid (apps.filter (fun a =>
        strLower a.company_name == strLower (strStrip c) &&
        strLower a.job_title == strLower (strStrip t)))).head? = some app) :
    matcherMatch apps uid now ed email_date =
      ⟨some app.id, "exact", 1, false, false, "Exact match: " ++ c ++ " - " ++ t⟩ := by
  rw [hc] at hct
  rw [ht] at htt
  have hex : matchExact apps uid c t =
      some ⟨some app.id, "exact", 1, false, false, "Exact match: " ++ c ++ " - " ++ t⟩ := by
    simp only [matchExact]
    rw [hfind]
  simp only [matcherMatch, hc, ht, Option.getD_some, hct, htt, Bool.and_self, if_true, hex]
  rfl

/-- C2 witness: a stored Acme / Dev row of user 1 is returned as an exact
match for the extracted fact naming Acme / Dev. -/
theorem matcher_exact_first_match_witness :
    matcherMatch [appExact] (some 1) 0 edExactW 0 =
      ⟨some appExact.id, "exact", 1, false, false, "Exact match: Acme - Dev"⟩ :=
  matcher_exact_first_match [appExact] (some 1) 0 edExactW 0 "Acme" "Dev" appExact
    rfl rfl (by decide) (by decide) (by decide)

/-- C2 counterexample: the claim's whitespace-trimmed equality does not
govern the exact strategy, because the stored columns are lowercased but not
trimmed.  A stored " acme" / "dev" row of user 1 is trimmed-equal to the
extracted "acme" / "dev", yet with every time window stale the Matcher
returns a no-match decision: match type no_match, confidence 0.9 rather
than 1.0, is_new true and should_review false rather than the exact-match
outcome. -/
theorem matcher_exact_trim_counterexample :
    (strLower (strStrip appStale.company_name) =
       strLower (strStrip (edAcmeDev.company_name.getD "")) ∧
     strLower (strStrip appStale.job_title) =
       strLower (strStrip (edAcmeDev.job_title.getD "")) ∧
     appStale.user_id = some 1) ∧
    (matcherMatch [appStale] (some 1) 10000000 edAcmeDev 10000000).match_type = "no_match" ∧
    (matcherMatch [appStale] (some 1) 10000000 edAcmeDev 10000000).confidence ≠ 1 ∧
    (matcherMatch [appStale] (some 1) 10000000 edAcmeDev 10000000).is_new = true := by
  decide

theorem strTruthy_none : strTruthy none = false := rfl

/-- Exhaustive case analysis of the unwrap entry point: the result is the
pass-through at confidence 1.0, or the HTML-path result surfaced above
confidence 0.6, or the text-path result surfaced above confidence 0.0. -/
theorem unwrap_cases (p : UnwrapPrims) (bt bh : Option String) :
    unwrap p bt bh = ⟨none, none, none, none, bt, bh, 1, "no_forwarding_detected"⟩ ∨
    (∃ h, bh = some h ∧ unwrap p bt bh = unwrapHtml p h ∧
      qLt (mkRat 3 5) (unwrapHtml p h).confidence = true) ∨
    (∃ t, bt = some t ∧ unwrap p bt bh = unwrapText p t ∧
      qLt 0 (unwrapText p t).confidence = true) := by
  rcases bh with _ | h
  · rcases bt with _ | t
    · left; simp [unwrap, strTruthy_none]
    · rcases hb : strTruthy (some t) with _ | _
      · left; simp [unwrap, strTruthy_none, hb]
      · rcases hq : qLt 0 (unwrapText p t).confidence with _ | _
        · left; simp [unwrap, strTruthy_none, hb, hq]
        · right; right; exact ⟨t, rfl, by simp [unwrap, strTruthy_none, hb, hq], hq⟩
  · rcases hb : strTruthy (some h) with _ | _
    · rcases bt with _ | t
      · left; simp [unwrap, strTruthy_none, hb]
      · rcases hb2 : strTruthy (some t) with _ | _
        · left; simp [unwrap, strTruthy_none, hb, hb2]
        · rcases hq : qLt 0 (unwrapText p t).confidence with _ | _
          · left; simp [unwrap, strTruthy_none, hb, hb2, hq]
          · right; right; exact ⟨t, rfl, by simp [unwrap, strTruthy_none, hb, hb2, hq], hq⟩
    · rcases hq : qLt (mkRat 3 5) (unwrapHtml p h).confidence with _ | _
      · rcases bt with _ | t
        · left; simp [unwrap, strTruthy_none, hb, hq]
        · rcases hb2 : strTruthy (some t) with _ | _
          · left; simp [unwrap, strTruthy_none, hb, hq, hb2]
          · rcases hq2 : qLt 0 (unwrapText p t).confidence with _ | _
            · left; simp [unwrap, strTruthy_none, hb, hq, hb2, hq2]
            · right; right; exact ⟨t, rfl, by simp [unwrap, strTruthy_none, hb, hq, hb2, hq2], hq2⟩
      · right; left; exact ⟨h, rfl, by simp [unwrap, strTruthy_none, hb, hq], hq⟩

/-- C4: when neither body contains a recognized forward marker (for the HTML
body, in its extracted text), unwrap returns the pass-through result: all
original fields unset, the input bodies unchanged, and confidence exactly
1.0. -/
theorem unwrap_no_marker_passthrough (p : UnwrapPrims) (bt bh : Option String)
    (hh : ∀ h t, bh = some h → p.htmlToText h = some t → forwardMatchEnd t = none)
    (ht : ∀ t, bt = some t → forwardMatchEnd t = none) :
    unwrap p bt bh = ⟨none, none, none, none, bt, bh, 1, "no_forwarding_detected"⟩ := by
  have hhtml : ∀ h, bh = some h → (unwrapHtml p h).confidence = 0 := by
    intro h hbh
    rcases hx : p.htmlToText h with _ | t
    · simp [unwrapHtml, hx]
    · simp [unwrapHtml, hx, hh h t hbh hx]
  have htext : ∀ t, bt = some t → (unwrapText p t).confidence = 0 := by
    intro t hbt
    simp [unwrapText, ht t hbt]
  rcases unwrap_cases p bt bh with h0 | ⟨h, hbh, _, hq⟩ | ⟨t, hbt, _, hq⟩
  · exact h0
  · rw [hhtml h hbh] at hq
    exact absurd hq (by decide)
  · rw [htext t hbt] at hq
    exact absurd hq (by decide)

/-- C4 witness: a plain text body and a plain HTML body, neither containing
any forward marker, pass through unchanged at confidence 1.0. -/
theorem unwrap_no_marker_passthrough_witness :
    unwrap trivPrims (some "hello world") (some "<p>hi</p>") =
      ⟨none, none, none, none, some "hello world", some "<p>hi</p>", 1,
       "no_forwarding_detected"⟩ :=
  unwrap_no_marker_passthrough trivPrims (some "hello world") (some "<p>hi</p>")
    (by
      intro h t hbh hxt
      cases hbh
      cases hxt
      decide)
    (by
      intro t hbt
      cases hbt
      decide)

/-- C10: unwrap never returns the zero-confidence total-failure result: the
result is the HTML-path result only above confidence 0.6, the text-path
result only above confidence 0.0, or else the not-forwarded result at
confidence 1.0 - so the returned confidence is always strictly positive. -/
theorem unwrap_confidence_positive (p : UnwrapPrims) (bt bh : Option String) :
    0 < (unwrap p bt bh).confidence ∧
    (unwrap p bt bh = ⟨none, none, none, none, bt, bh, 1, "no_forwarding_detected"⟩ ∨
     (∃ h, bh = some h ∧ unwrap p bt bh = unwrapHtml p h ∧
       qLt (mkRat 3 5) (unwrapHtml p h).confidence = true) ∨
     (∃ t, bt = some t ∧ unwrap p bt bh = unwrapText p t ∧
       qLt 0 (unwrapText p t).confidence = true)) := by
  refine ⟨?_, unwrap_cases p bt bh⟩
  rcases unwrap_cases p bt bh with h0 | ⟨h, _, heq, hq⟩ | ⟨t, _, heq, hq⟩
  · rw [h0]
    norm_num
  · rw [heq]
    exact lt_trans (by decide : (0 : ℚ) < mkRat 3 5) ((qLt_iff _ _).mp hq)
  · rw [heq]
    exact (qLt_iff _ _).mp hq

/-- C8: when a previously processed email of the same user already carries
the content fingerprint that the pipeline computes for an inbound email with
a fresh transport id, processing that email returns a duplicate-classified
result (successful, error field "Duplicate email", neither a new application
nor a review item) and leaves the Application, ApplicationEvent and Link
tables unchanged. -/
theorem pipeline_fingerprint_dedup (env : ProcessorEnv) (db : DB) (e : InboundEmail)
    (hmid : db.rawEmails.find? (fun r =>
        r.outlook_message_id == e.outlook_message_id && r.user_id == env.user_id) = none)
    (hdup : (db.rawEmails.find? (fun r =>
        r.email_fingerprint == some (pipelineFingerprint env e) &&
        r.id != db.nextRawId && r.user_id == env.user_id)).isSome = true) :
    (processEmailF env none db e).1.applications = db.applications ∧
    (processEmailF env none db e).1.events = db.events ∧
    (processEmailF env none db e).1.links = db.links ∧
    (processEmailF env none db e).2.success = true ∧
    (processEmailF env none db e).2.error = some "Duplicate email" ∧
    (processEmailF env none db e).2.is_new_application = false ∧
    (processEmailF env none db e).2.needs_manual_review = false := by
  rcases Option.isSome_iff_exists.mp hdup with ⟨dup, hd⟩
  simp [processEmailF, faultAt, hmid, hd]

/-- C8 witness: the stored raw email of user 1 carries the fingerprint that
the pipeline computes for the second email, whose transport id m2 matches no
stored row; the second processing call is classified as a duplicate and the
Application, ApplicationEvent and Link tables are untouched. -/
theorem pipeline_fingerprint_dedup_witness :
    (processEmailF envW none dbDup emailDup).1.applications = dbDup.applications ∧
    (processEmailF envW none dbDup emailDup).1.events = dbDup.events ∧
    (processEmailF envW none dbDup emailDup).1.links = dbDup.links ∧
    (processEmailF envW none dbDup emailDup).2.success = true ∧
    (processEmailF envW none dbDup emailDup).2.error = some "Duplicate email" ∧
    (processEmailF envW none dbDup emailDup).2.is_new_application = false ∧
    (processEmailF envW none dbDup emailDup).2.needs_manual_review = false :=
  pipeline_fingerprint_dedup envW dbDup emailDup (by decide)
    (by
      have hpred : (rawProcessed.email_fingerprint ==
            some (pipelineFingerprint envW emailDup) &&
          rawProcessed.id != dbDup.nextRawId &&
          rawProcessed.user_id == envW.user_id) = true := by
        rw [show rawProcessed.email_fingerprint =
              some (pipelineFingerprint envW emailDup) from rfl]
        rw [beq_self_eq_true]
        decide
      have hfind : dbDup.rawEmails.find? (fun r =>
          r.email_fingerprint == some (pipelineFingerprint envW emailDup) &&
          r.id != dbDup.nextRawId && r.user_id == envW.user_id) = some rawProcessed :=
        List.find?_cons_of_pos _ hpred
      rw [hfind]
      rfl)

/-- Length invariant of batch processing: one result per input email. -/
theorem processBatch_foldl_length (env : ProcessorEnv)
    (emails : List (InboundEmail × Option (Stage × String))) :
    ∀ acc : DB × List ProcessingResult,
      ((emails.foldl (fun acc em =>
          let r := processEmailF env em.2 acc.1 em.1
          (r.1, acc.2 ++ [r.2])) acc).2.length) = acc.2.length + emails.length := by
  induction emails with
  | nil => intro acc; simp
  | cons em rest ih =>
    intro acc
    simp only [List.foldl_cons]
    rw [ih]
    simp [List.length_append]
    omega

/-- C9: an unexpected failure raised at any stage of process_email never
propagates: either the failing stage is not reached (the call behaves as the
failure-free run), or the committed state is rolled back unchanged and the
call returns a failed ProcessingResult with the error message and confidence
0.0; the handler records the message on the in-memory raw email with
processed left false, and a batch always yields one result per email, so a
failing email never aborts a batch. -/
theorem pipeline_error_containment (env : ProcessorEnv) (db : DB) (e : InboundEmail)
    (st : Stage) (msg : String) :
    (processEmailF env (some (st, msg)) db e = processEmailF env none db e ∨
     ((processEmailF env (some (st, msg)) db e).1 = db ∧
      (processEmailF env (some (st, msg)) db e).2.success = false ∧
      (processEmailF env (some (st, msg)) db e).2.error = some msg ∧
      (processEmailF env (some (st, msg)) db e).2.confidence = 0)) ∧
    (∀ r : RawEmail, (annotateError r msg).processing_error = some msg ∧
      (annotateError r msg).processed = false) ∧
    (∀ emails : List (InboundEmail × Option (Stage × String)),
      (processBatch env db emails).2.length = emails.length) := by
  refine ⟨?_, fun r => ⟨rfl, rfl⟩, fun emails => by
    unfold processBatch
    rw [processBatch_foldl_length]
    simp⟩
  cases st
  case dedupQuery =>
    right
    simp [processEmailF, faultAt, handleFailure]
  case insertRaw =>
    rcases hm : db.rawEmails.find? (fun r =>
        r.outlook_message_id == e.outlook_message_id && r.user_id == env.user_id) with _ | ex
    · right
      simp [processEmailF, faultAt, handleFailure, hm]
    · left
      simp [processEmailF, faultAt, hm]
  case unwrapStage =>
    rcases hm : db.rawEmails.find? (fun r =>
        r.outlook_message_id == e.outlook_message_id && r.user_id == env.user_id) with _ | ex
    · right
      simp [processEmailF, faultAt, handleFailure, hm]
    · left
      simp [processEmailF, faultAt, hm]
  case extractStage =>
    rcases hm : db.rawEmails.find? (fun r =>
        r.outlook_message_id == e.outlook_message_id && r.user_id == env.user_id) with _ | ex
    · right
      simp [processEmailF, faultAt, handleFailure, hm]
    · left
      simp [processEmailF, faultAt, hm]
  case fingerprintStage =>
    rcases hm : db.rawEmails.find? (fun r =>
        r.outlook_message_id == e.outlook_message_id && r.user_id == env.user_id) with _ | ex
    · right
      simp [processEmailF, faultAt, handleFailure, hm]
    · left
      simp [processEmailF, faultAt, hm]
  case matchStage =>
    rcases hm : db.rawEmails.find? (fun r =>
        r.outlook_message_id == e.outlook_message_id && r.user_id == env.user_id) with _ | ex
    · rcases hf : db.rawEmails.find? (fun r =>
          r.email_fingerprint == some (pipelineFingerprint env e) &&
          r.id != db.nextRawId && r.user_id == env.user_id) with _ | dup
      · right
        simp [processEmailF, faultAt, handleFailure, hm, hf]
      · left
        simp [processEmailF, faultAt, hm, hf]
    · left
      simp [processEmailF, faultAt, hm]
  case persistStage =>
    rcases hm : db.rawEmails.find? (fun r =>
        r.outlook_message_id == e.outlook_message_id && r.user_id == env.user_id) with _ | ex
    · rcases hf : db.rawEmails.find? (fun r =>
          r.email_fingerprint == some (pipelineFingerprint env e) &&
          r.id != db.nextRawId && r.user_id == env.user_id) with _ | dup
      · right
        simp [processEmailF, faultAt, handleFailure, hm, hf]
      · left
        simp [processEmailF, faultAt, hm, hf]
    · left
      simp [processEmailF, faultAt, hm]
